import Mathlib

/-!
Verification of the kilo-guardian AI-brain orchestration core.

Shallow embedding of:
* `src/services/ai_brain/kilo_tools.py` — tool dispatch (`execute_tool_call`)
  and the medication-logging handler (`_log_medication_taken`);
* `src/services/ai_brain/main.py` — the Gemini function-calling loop
  (`_gemini_with_functions`) and the surrounding `chat_llm_direct` handler;
* `src/services/ai_brain/proactive_intelligence.py` — the six collaborator
  checks, `gather_proactive_context`, `build_context_prompt`,
  `should_be_proactive`.

HTTP collaborators are modelled as explicit environment parameters: a call
that can raise (network error, timeout) is an `Except String` value carrying
`str(exception)`; a successful call carries the status code and the decoded
JSON payload.  Python dictionaries with heterogeneous values are modelled by
the `PyVal` tree.
-/

/-- JSON-like Python values, as produced by the tool handlers. -/
inductive PyVal where
  | str (s : String)
  | int (n : Int)
  | bool (b : Bool)
  | list (xs : List PyVal)
  | dict (fields : List (String × PyVal))
deriving BEq, Repr

mutual

def PyVal.decEq : (a b : PyVal) → Decidable (a = b)
  | .str a, .str b =>
      if h : a = b then isTrue (by rw [h]) else isFalse (fun hh => by cases hh; exact h rfl)
  | .int a, .int b =>
      if h : a = b then isTrue (by rw [h]) else isFalse (fun hh => by cases hh; exact h rfl)
  | .bool a, .bool b =>
      if h : a = b then isTrue (by rw [h]) else isFalse (fun hh => by cases hh; exact h rfl)
  | .list xs, .list ys =>
      match PyVal.decEqList xs ys with
      | isTrue h => isTrue (by rw [h])
      | isFalse h => isFalse (fun hh => by cases hh; exact h rfl)
  | .dict xs, .dict ys =>
      match PyVal.decEqFields xs ys with
      | isTrue h => isTrue (by rw [h])
      | isFalse h => isFalse (fun hh => by cases hh; exact h rfl)
  | .str _, .int _ => isFalse (fun hh => by cases hh)
  | .str _, .bool _ => isFalse (fun hh => by cases hh)
  | .str _, .list _ => isFalse (fun hh => by cases hh)
  | .str _, .dict _ => isFalse (fun hh => by cases hh)
  | .int _, .str _ => isFalse (fun hh => by cases hh)
  | .int _, .bool _ => isFalse (fun hh => by cases hh)
  | .int _, .list _ => isFalse (fun hh => by cases hh)
  | .int _, .dict _ => isFalse (fun hh => by cases hh)
  | .bool _, .str _ => isFalse (fun hh => by cases hh)
  | .bool _, .int _ => isFalse (fun hh => by cases hh)
  | .bool _, .list _ => isFalse (fun hh => by cases hh)
  | .bool _, .dict _ => isFalse (fun hh => by cases hh)
  | .list _, .str _ => isFalse (fun hh => by cases hh)
  | .list _, .int _ => isFalse (fun hh => by cases hh)
  | .list _, .bool _ => isFalse (fun hh => by cases hh)
  | .list _, .dict _ => isFalse (fun hh => by cases hh)
  | .dict _, .str _ => isFalse (fun hh => by cases hh)
  | .dict _, .int _ => isFalse (fun hh => by cases hh)
  | .dict _, .bool _ => isFalse (fun hh => by cases hh)
  | .dict _, .list _ => isFalse (fun hh => by cases hh)

def PyVal.decEqList : (xs ys : List PyVal) → Decidable (xs = ys)
  | [], [] => isTrue rfl
  | [], _ :: _ => isFalse (fun hh => by cases hh)
  | _ :: _, [] => isFalse (fun hh => by cases hh)
  | x :: xs, y :: ys =>
      match PyVal.decEq x y, PyVal.decEqList xs ys with
      | isTrue h1, isTrue h2 => isTrue (by rw [h1, h2])
      | isFalse h1, _ => isFalse (fun hh => by cases hh; exact h1 rfl)
      | _, isFalse h2 => isFalse (fun hh => by cases hh; exact h2 rfl)

def PyVal.decEqFields : (xs ys : List (String × PyVal)) → Decidable (xs = ys)
  | [], [] => isTrue rfl
  | [], _ :: _ => isFalse (fun hh => by cases hh)
  | _ :: _, [] => isFalse (fun hh => by cases hh)
  | (k, v) :: xs, (k', v') :: ys =>
      match String.decEq k k', PyVal.decEq v v', PyVal.decEqFields xs ys with
      | isTrue h1, isTrue h2, isTrue h3 => isTrue (by rw [h1, h2, h3])
      | isFalse h1, _, _ => isFalse (fun hh => by cases hh; exact h1 rfl)
      | _, isFalse h2, _ => isFalse (fun hh => by cases hh; exact h2 rfl)
      | _, _, isFalse h3 => isFalse (fun hh => by cases hh; exact h3 rfl)

end

instance : DecidableEq PyVal := PyVal.decEq

/-- A Python dict returned by a tool handler (`Dict[str, Any]`). -/
abbrev ToolResult := List (String × PyVal)

/-- A tool-call argument mapping (`dict(func_call.args)`). -/
abbrev Params := List (String × PyVal)

/-- Python `str.lower` (ASCII behaviour, which is all the repository uses);
stated on the character list so that it reduces in the kernel. -/
def pyLower (s : String) : String := ⟨s.data.map Char.toLower⟩

/-- Python's substring test `t in s` on lists of characters: scan every
suffix of `s` for `t` as a prefix. -/
def containsSub (s t : List Char) : Bool :=
  match s with
  | [] => t.isPrefixOf []
  | c :: s' => t.isPrefixOf (c :: s') || containsSub s' t

/-- Python's substring test `t in s` on strings. -/
def strContains (s t : String) : Bool := containsSub s.data t.data

namespace KiloTools

/-- The twelve tool names registered in `KILO_FUNCTION_DECLARATIONS`
(`kilo_tools.py`), in declaration order. -/
def registered_tools : List String :=
  ["get_spending_summary", "get_budget_status", "create_budget",
   "get_medications", "log_medication_taken", "get_habits",
   "log_habit_completion", "get_upcoming_reminders", "create_reminder",
   "search_library", "add_library_entry", "search_web"]

/-- The behaviour of the twelve `_`-prefixed handlers, one field per handler.
Each is a function of the model-supplied arguments (or a plain value for the
parameterless handlers) that either returns a result dict or raises
(`Except.error` carrying `str(exception)`). -/
structure Handlers where
  get_spending_summary : Params → Except String ToolResult
  get_budget_status : Except String ToolResult
  create_budget : Params → Except String ToolResult
  get_medications : Except String ToolResult
  log_medication_taken : Params → Except String ToolResult
  get_habits : Except String ToolResult
  log_habit_completion : Params → Except String ToolResult
  get_upcoming_reminders : Params → Except String ToolResult
  create_reminder : Params → Except String ToolResult
  search_library : Params → Except String ToolResult
  add_library_entry : Params → Except String ToolResult
  search_web : Params → Except String ToolResult

/-- The body of the `try:` block of `execute_tool_call`
(`kilo_tools.py:208-255`): the if/elif chain over the twelve tool names,
ending in the unknown-tool error dict (which is a normal return, not a
raise). -/
def execute_tool_body (h : Handlers) (tool_name : String) (parameters : Params) :
    Except String ToolResult :=
  if tool_name = "get_spending_summary" then h.get_spending_summary parameters
  else if tool_name = "get_budget_status" then h.get_budget_status
  else if tool_name = "create_budget" then h.create_budget parameters
  else if tool_name = "get_medications" then h.get_medications
  else if tool_name = "log_medication_taken" then h.log_medication_taken parameters
  else if tool_name = "get_habits" then h.get_habits
  else if tool_name = "log_habit_completion" then h.log_habit_completion parameters
  else if tool_name = "get_upcoming_reminders" then h.get_upcoming_reminders parameters
  else if tool_name = "create_reminder" then h.create_reminder parameters
  else if tool_name = "search_library" then h.search_library parameters
  else if tool_name = "add_library_entry" then h.add_library_entry parameters
  else if tool_name = "search_web" then h.search_web parameters
  else Except.ok [("error", PyVal.str ("Unknown tool: " ++ tool_name))]

/-- `execute_tool_call` (`kilo_tools.py:208-257`): run the dispatch chain
and convert any exception into the `{"error": str(e)}` dict. -/
def execute_tool_call (h : Handlers) (tool_name : String) (parameters : Params) :
    ToolResult :=
  match execute_tool_body h tool_name parameters with
  | Except.ok r => r
  | Except.error e => [("error", PyVal.str e)]

/-- A concrete `Handlers` valuation where every handler succeeds with an
empty dict; used to instantiate universally quantified theorems. -/
def trivialHandlers : Handlers :=
  ⟨fun _ => Except.ok [], Except.ok [], fun _ => Except.ok [],
   Except.ok [], fun _ => Except.ok [], Except.ok [],
   fun _ => Except.ok [], fun _ => Except.ok [], fun _ => Except.ok [],
   fun _ => Except.ok [], fun _ => Except.ok [], fun _ => Except.ok []⟩

/-- A `Handlers` valuation where `_get_medications` raises an exception whose
`str` is `"boom"`, all other handlers succeeding. -/
def raisingHandlers : Handlers :=
  ⟨fun _ => Except.ok [], Except.ok [], fun _ => Except.ok [],
   Except.error "boom", fun _ => Except.ok [], Except.ok [],
   fun _ => Except.ok [], fun _ => Except.ok [], fun _ => Except.ok [],
   fun _ => Except.ok [], fun _ => Except.ok [], fun _ => Except.ok []⟩

/-- A medication record as served by the meds microservice, restricted to
the fields `_log_medication_taken` reads (`id` for the take endpoint, `name`
for resolution and messages). -/
structure Med where
  id : Nat
  name : String
deriving DecidableEq, Repr

/-- `_log_medication_taken` (`kilo_tools.py:431-477`).

* `med_name` is `params.get("medication_name", "")`; the falsy check
  `if not med_name` is `med_name = ""`.
* `fetch` models `client.get("http://kilo-meds:9000/")`: an exception
  (`Except.error`, handled by the outer `try/except` as `{"error": str(e)}`)
  or a status code with the decoded meds list.
* `takeStatus id` models the status code of the POST to the take endpoint
  for medication `id`. -/
def log_medication_taken_impl (fetch : Except String (Nat × List Med))
    (takeStatus : Nat → Nat) (med_name : String) : ToolResult :=
  if med_name = "" then [("error", PyVal.str "Missing medication_name parameter")]
  else
    match fetch with
    | Except.error e => [("error", PyVal.str e)]
    | Except.ok (status, meds) =>
      if status ≠ 200 then [("error", PyVal.str "Could not fetch medications list")]
      else if pyLower med_name = "all" then
        let results := meds.map fun m =>
          PyVal.dict [("medication", PyVal.str m.name),
                      ("success", PyVal.bool (takeStatus m.id = 200 ∨ takeStatus m.id = 201))]
        [("success", PyVal.bool true), ("logged", PyVal.list results),
         ("message", PyVal.str ("Logged all " ++ toString results.length ++ " medications"))]
      else
        match meds.find? (fun m => strContains (pyLower m.name) (pyLower med_name)) with
        | none =>
            [("error", PyVal.str ("Medication '" ++ med_name ++ "' not found. Available: " ++
              String.intercalate ", " (meds.map Med.name)))]
        | some med =>
            if takeStatus med.id = 200 ∨ takeStatus med.id = 201 then
              [("success", PyVal.bool true), ("medication", PyVal.str med.name),
               ("message", PyVal.str ("Logged dose of " ++ med.name))]
            else
              [("error", PyVal.str ("Failed to log medication (HTTP " ++
                toString (takeStatus med.id) ++ ")"))]

end KiloTools

namespace AiBrain

/-- A Gemini function call (`part.function_call`). -/
structure FuncCall where
  name : String
  args : Params
deriving DecidableEq, Repr

/-- One response part: optional text and optional function call; the Python
truthiness checks treat both `None` and an empty text as absent. -/
structure Part where
  text : Option String
  function_call : Option FuncCall
deriving DecidableEq, Repr

/-- A response candidate: its `content.parts`. -/
structure Candidate where
  parts : List Part
deriving DecidableEq, Repr

/-- A `generate_content` response: the aggregated `.text` attribute (or
`None`) plus the candidates. -/
structure ModelResponse where
  text : Option String
  candidates : List Candidate
deriving DecidableEq, Repr

/-- One `function_response` entry appended to the `role='function'` turn. -/
structure FuncResponse where
  name : String
  response : ToolResult
deriving DecidableEq, Repr

/-- A turn of `conversation_history`: the seeding prompt string, a model
content (`candidate.content`, kept verbatim), or a `role='function'` content
holding the tool results. -/
inductive Content where
  | prompt (text : String)
  | model (parts : List Part)
  | function (parts : List FuncResponse)
deriving DecidableEq, Repr

/-- A deterministic model backend: `generate_content` as a function of the
submitted `contents` (the conversation history).  This quantifies over every
possible sequence of model responses, since the history grows strictly
between calls. -/
abbrev GenModel := List Content → ModelResponse

/-- `max_iterations = 5` (`main.py:3868`). -/
def max_iterations : Nat := 5

/-- Build the `function_response` entry for one call: execute it through
`execute_tool_call` and pair the result with the tool name. -/
def mkFuncResponse (h : KiloTools.Handlers) (fc : FuncCall) : FuncResponse :=
  ⟨fc.name, KiloTools.execute_tool_call h fc.name fc.args⟩

/-- The `while iteration < max_iterations` loop of `_gemini_with_functions`
(`main.py:3871-3933`), as recursion on the remaining budget
(`max_iterations - iteration`).  Each pass collects ALL function calls of
the first candidate; if there are none it breaks, otherwise it executes them
in order, appends the model turn plus one `role='function'` turn, and
resubmits.  Returns the final response, the final history and the number of
tool-execution rounds performed. -/
def run_loop (model : GenModel) (h : KiloTools.Handlers) :
    Nat → List Content → ModelResponse → ModelResponse × List Content × Nat
  | 0, history, response => (response, history, 0)
  | fuel + 1, history, response =>
    match response.candidates with
    | [] => (response, history, 0)
    | c :: _ =>
      match c.parts.filterMap Part.function_call with
      | [] => (response, history, 0)
      | fc :: fcs =>
        let response_parts := (fc :: fcs).map (mkFuncResponse h)
        let history' := history ++ [Content.model c.parts, Content.function response_parts]
        let rec_result := run_loop model h fuel history' (model history')
        (rec_result.1, rec_result.2.1, rec_result.2.2 + 1)

/-- Python truthiness of an optional string: present and non-empty. -/
def truthyOpt : Option String → Bool
  | none => false
  | some t => !(t == "")

/-- The fallback scan of `_gemini_with_functions` (`main.py:3939-3943`): the
first truthy `part.text` over ALL candidates of the (final) response. -/
def first_part_text (response : ModelResponse) : Option String :=
  response.candidates.findSome? fun c =>
    c.parts.findSome? fun p => if truthyOpt p.text then p.text else none

/-- Final text extraction (`main.py:3935-3944`): top-level `.text` if truthy,
else the first truthy part text of the same final response, else `"Done."`. -/
def extract_final_text (response : ModelResponse) : String :=
  if truthyOpt response.text then response.text.getD ""
  else
    match first_part_text response with
    | some t => t
    | none => "Done."

/-- The response the loop ends on, starting from the initial
`generate_content` call on `full_prompt`. -/
def final_response (model : GenModel) (h : KiloTools.Handlers)
    (full_prompt : String) : ModelResponse :=
  (run_loop model h max_iterations [Content.prompt full_prompt]
    (model [Content.prompt full_prompt])).1

/-- The history the loop ends with. -/
def final_history (model : GenModel) (h : KiloTools.Handlers)
    (full_prompt : String) : List Content :=
  (run_loop model h max_iterations [Content.prompt full_prompt]
    (model [Content.prompt full_prompt])).2.1

/-- `_gemini_with_functions` (`main.py:3867-3944`): seed the history with the
prompt, run the bounded tool loop, extract the final text. -/
def gemini_with_functions (model : GenModel) (h : KiloTools.Handlers)
    (full_prompt : String) : String :=
  extract_final_text (final_response model h full_prompt)

/-- The turn-pairing checker, as a state machine over the history: `none`
means no tool results are owed; `some fcs` means the previous turn was a
model turn containing the calls `fcs`, and the current turn must be exactly
one `role='function'` turn with their results in order. -/
def pairedAux (h : KiloTools.Handlers) :
    Option (List FuncCall) → List Content → Bool
  | none, [] => true
  | some _, [] => false
  | none, Content.prompt _ :: rest => pairedAux h none rest
  | none, Content.function _ :: rest => pairedAux h none rest
  | none, Content.model parts :: rest =>
      match parts.filterMap Part.function_call with
      | [] => pairedAux h none rest
      | fcs => pairedAux h (some fcs) rest
  | some fcs, Content.function resps :: rest =>
      if resps = fcs.map (mkFuncResponse h) then pairedAux h none rest else false
  | some _, Content.prompt _ :: _ => false
  | some _, Content.model _ :: _ => false

/-- Whether some model turn of the history carries a truthy text part. -/
def historyHasText (history : List Content) : Bool :=
  history.any fun c =>
    match c with
    | Content.model parts => parts.any fun p => truthyOpt p.text
    | _ => false

/-- A response whose single candidate has one function-call part and no
text. -/
def callOnlyResponse : ModelResponse :=
  ⟨none, [⟨[⟨none, some ⟨"get_habits", []⟩⟩]⟩]⟩

/-- A model that requests a tool on every turn: drives the loop to budget
exhaustion. -/
def constModel : GenModel := fun _ => callOnlyResponse

/-- A model whose first response carries a text part `"hello"` alongside a
function call, and that afterwards keeps requesting tools with no text: the
final response has no text anywhere, while a prior model turn does. -/
def textThenCallsModel : GenModel := fun history =>
  if history.length ≤ 1 then
    ⟨none, [⟨[⟨some "hello", none⟩, ⟨none, some ⟨"get_habits", []⟩⟩]⟩]⟩
  else callOnlyResponse

/-- The response object of `chat_llm_direct` (`main.py`): the reply text and
the request context passed through. -/
structure ChatResponse where
  response : String
  context : Option String
deriving DecidableEq, Repr

/-- `chat_llm_direct` (`main.py:3967-3972` for the except branch): the whole
request body — prompt assembly, model invocation, tool loop — is one `try:`
block whose outcome is `body` (`Except.error` when any step raises).  On
success the reply is `response_text.strip()`; on any exception the reply is
the fixed string `"Brain glitched. Try again."` with the context passed
through unchanged. -/
def chat_llm_direct (body : Except String String) (context : Option String) :
    ChatResponse :=
  match body with
  | Except.ok response_text => ⟨response_text.trim, context⟩
  | Except.error _ => ⟨"Brain glitched. Try again.", context⟩

end AiBrain

namespace ProactiveIntelligence

/-- Python `int(s)` restricted to the decimal integers appearing as
medication-schedule hours: strips whitespace like `int`, raises `ValueError`
on anything unparsable. -/
def pyInt (s : String) : Except String Int :=
  match s.trim.toInt? with
  | some n => Except.ok n
  | none => Except.error ("invalid literal for int() with base 10: '" ++ s ++ "'")

/-- A medication JSON object as read by `check_medications`
(`med.get("name")`, `med.get("dosage")`, `med.get("time", "")`,
`med.get("frequency")`). -/
structure MedRecord where
  name : String
  dosage : String
  time : String
  frequency : String
deriving DecidableEq, Repr

/-- One entry of `pending_meds`. -/
structure PMedInfo where
  name : String
  dosage : String
  time : String
  frequency : String
deriving DecidableEq, Repr

/-- The dict returned by `check_medications`; `current_time` is absent
(`none`) on the non-200/empty/exception paths, mirroring the source dicts. -/
structure MedsCheck where
  pending : Bool
  meds : List PMedInfo
  current_time : Option String
  error : Option String
deriving DecidableEq, Repr

/-- The inner `for med_time in med_times` loop of `check_medications`
(`proactive_intelligence.py:47-60`): strip each comma-separated entry, parse
the hour before the `":"` (a parse failure raises, reaching the outer
`except`), and keep the medication when its hour passed within the last two
hours. -/
def pendingOfTimes (current_hour : Int) (med : MedRecord) :
    List String → Except String (List PMedInfo)
  | [] => Except.ok []
  | mt :: rest => do
      let med_time := mt.trim
      let here ←
        if strContains med_time ":" then do
          let med_hour ← pyInt ((med_time.splitOn ":").headD "")
          if 0 ≤ current_hour - med_hour ∧ current_hour - med_hour ≤ 2 then
            pure [(⟨med.name, med.dosage, med_time, med.frequency⟩ : PMedInfo)]
          else pure []
        else pure []
      let more ← pendingOfTimes current_hour med rest
      pure (here ++ more)

/-- The outer `for med in meds` loop of `check_medications`. -/
def pendingMedsOf (current_hour : Int) :
    List MedRecord → Except String (List PMedInfo)
  | [] => Except.ok []
  | med :: rest => do
      let here ← pendingOfTimes current_hour med (med.time.splitOn ",")
      let more ← pendingMedsOf current_hour rest
      pure (here ++ more)

/-- `check_medications` (`proactive_intelligence.py:30-71`). `fetch` models
`client.get(".../meds/")`: an exception or a status code with the decoded
list. -/
def check_medications (fetch : Except String (Nat × List MedRecord))
    (current_hour : Nat) (current_time : String) : MedsCheck :=
  match (do
    let (status, meds) ← fetch
    if status ≠ 200 then pure (⟨false, [], none, none⟩ : MedsCheck)
    else if meds = [] then pure (⟨false, [], none, none⟩ : MedsCheck)
    else do
      let pending_meds ← pendingMedsOf (current_hour : Int) meds
      pure (⟨!pending_meds.isEmpty, pending_meds, some current_time, none⟩ : MedsCheck)
    : Except String MedsCheck) with
  | Except.ok c => c
  | Except.error e => ⟨false, [], none, some e⟩

/-- A habit JSON object (`h.get("id")`, `h.get("name")`,
`h.get("frequency")`). -/
structure HabitRecord where
  id : Option Nat
  name : String
  frequency : String
deriving DecidableEq, Repr

/-- A completion JSON object (`c.get("habit_id")`, `c.get("date", "")`). -/
structure CompletionRecord where
  habit_id : Option Nat
  date : String
deriving DecidableEq, Repr

/-- One entry of the `not_logged` list. -/
structure HabitBrief where
  name : String
  frequency : String
deriving DecidableEq, Repr

/-- The dict returned by `check_habits`; `total_habits` and `completed` are
absent on the default/exception paths. -/
structure HabitsCheck where
  not_logged : Bool
  habits : List HabitBrief
  total_habits : Option Nat
  completed : Option Nat
  error : Option String
deriving DecidableEq, Repr

/-- `check_habits` (`proactive_intelligence.py:74-112`): two collaborator
GETs inside one `try:`; `completed_habit_ids` is a Python set, modelled by
deduplication. -/
def check_habits (fetchHabits : Except String (Nat × List HabitRecord))
    (fetchCompletions : Except String (Nat × List CompletionRecord))
    (today : String) : HabitsCheck :=
  match (do
    let (status, habits) ← fetchHabits
    if status ≠ 200 then pure (⟨false, [], none, none, none⟩ : HabitsCheck)
    else if habits = [] then pure (⟨false, [], none, none, none⟩ : HabitsCheck)
    else do
      let (status2, completions) ← fetchCompletions
      if status2 = 200 then
        let completed_today := completions.filter fun c => c.date.startsWith today
        let completed_habit_ids := (completed_today.map CompletionRecord.habit_id).dedup
        let not_logged := (habits.filter fun hb =>
            !(completed_habit_ids.contains hb.id)).map fun hb =>
          (⟨hb.name, hb.frequency⟩ : HabitBrief)
        pure (⟨!not_logged.isEmpty, not_logged, some habits.length,
               some completed_habit_ids.length, none⟩ : HabitsCheck)
      else pure (⟨false, [], none, none, none⟩ : HabitsCheck)
    : Except String HabitsCheck) with
  | Except.ok c => c
  | Except.error e => ⟨false, [], none, none, some e⟩

/-- A reminder JSON object: `r.get("text", str(r))` is modelled by the
optional `text` field with `rendered` standing for `str(r)`. -/
structure ReminderRecord where
  text : Option String
  rendered : String
deriving DecidableEq, Repr

/-- The dict returned by `check_pending_reminders`. -/
structure RemindersCheck where
  pending : Bool
  count : Nat
  reminders : List String
  error : Option String
deriving DecidableEq, Repr

/-- `check_pending_reminders` (`proactive_intelligence.py:115-131`). -/
def check_pending_reminders (fetch : Except String (Nat × List ReminderRecord)) :
    RemindersCheck :=
  match (do
    let (status, reminders) ← fetch
    if status = 200 ∧ reminders ≠ [] then
      pure (⟨true, reminders.length,
             (reminders.take 3).map (fun r => r.text.getD r.rendered), none⟩ : RemindersCheck)
    else pure (⟨false, 0, [], none⟩ : RemindersCheck)
    : Except String RemindersCheck) with
  | Except.ok c => c
  | Except.error e => ⟨false, 0, [], some e⟩

/-- The `stats` object of the security monitor, with the `.get(_, 0)`
defaults folded in. -/
structure SecStats where
  vulnerabilities : Nat
  blocked_threats : Nat
  open_ports : Nat
deriving DecidableEq, Repr

/-- The dict returned by `check_security`; `stats` is `none` for the empty
`{}` of the default/exception paths. -/
structure SecurityCheck where
  alerts : Bool
  messages : List String
  stats : Option SecStats
  error : Option String
deriving DecidableEq, Repr

/-- `check_security` (`proactive_intelligence.py:134-157`). -/
def check_security (fetch : Except String (Nat × SecStats)) : SecurityCheck :=
  match (do
    let (status, stats) ← fetch
    if status = 200 then
      let alerts :=
        (if stats.vulnerabilities > 0 then
          [toString stats.vulnerabilities ++ " vulnerabilities detected"] else []) ++
        (if stats.blocked_threats > 0 then
          [toString stats.blocked_threats ++ " threats blocked"] else []) ++
        (if stats.open_ports > 10 then
          [toString stats.open_ports ++ " open ports found"] else [])
      pure (⟨!alerts.isEmpty, alerts, some stats, none⟩ : SecurityCheck)
    else pure (⟨false, [], none, none⟩ : SecurityCheck)
    : Except String SecurityCheck) with
  | Except.ok c => c
  | Except.error e => ⟨false, [], none, some e⟩

/-- A budget JSON object (`budget["category"]`, `budget.get("spent", 0)`,
`budget.get("limit", 0)`); the Python floats are modelled as rationals. -/
structure BudgetRecord where
  category : String
  spent : ℚ
  limit : ℚ
deriving DecidableEq, Repr

/-- The dict returned by `check_financial`. -/
structure FinancialCheck where
  alerts : Bool
  messages : List String
  budgets : List BudgetRecord
  error : Option String
deriving DecidableEq, Repr

/-- `f"{pct:.0f}"` for the percentages of `check_financial`, modelled as
rounding to the nearest integer (Python rounds ties to even; the difference
only affects the display string at exact half-percent values). -/
def fmtPct (q : ℚ) : String := toString (round q)

/-- `check_financial` (`proactive_intelligence.py:160-183`). -/
def check_financial (fetch : Except String (Nat × List BudgetRecord)) :
    FinancialCheck :=
  match (do
    let (status, budgets) ← fetch
    if status = 200 then
      let alerts := budgets.filterMap fun budget =>
        if budget.limit > 0 then
          let pct := budget.spent / budget.limit * 100
          if pct ≥ 90 then
            some (budget.category ++ ": " ++ fmtPct pct ++ "% of budget used")
          else none
        else none
      pure (⟨!alerts.isEmpty, alerts, budgets, none⟩ : FinancialCheck)
    else pure (⟨false, [], [], none⟩ : FinancialCheck)
    : Except String FinancialCheck) with
  | Except.ok c => c
  | Except.error e => ⟨false, [], [], some e⟩

/-- A value of the gateway status JSON: a dict with its `ok` flag
(`health.get("ok", False)` folded in) or any non-dict value. -/
inductive HealthVal where
  | dict (ok : Bool)
  | other
deriving DecidableEq, Repr

/-- The dict returned by `check_system_health`. -/
structure SystemHealthCheck where
  healthy : Bool
  down_services : List String
  total_checked : Nat
  error : Option String
deriving DecidableEq, Repr

/-- `check_system_health` (`proactive_intelligence.py:186-210`). -/
def check_system_health (fetch : Except String (Nat × List (String × HealthVal))) :
    SystemHealthCheck :=
  match (do
    let (status, services) ← fetch
    if status = 200 then
      let down_services := (services.filter fun sv =>
        match sv.2 with
        | HealthVal.dict ok => !ok
        | HealthVal.other => false).map Prod.fst
      pure (⟨down_services.isEmpty, down_services, services.length, none⟩ : SystemHealthCheck)
    else pure (⟨true, [], 0, none⟩ : SystemHealthCheck)
    : Except String SystemHealthCheck) with
  | Except.ok c => c
  | Except.error e => ⟨true, [], 0, some e⟩

/-- The collaborator environments of the six checks (the habits check makes
two GETs inside its one `try:`). -/
structure CheckEnvs where
  meds : Except String (Nat × List MedRecord)
  habitsList : Except String (Nat × List HabitRecord)
  habitsCompletions : Except String (Nat × List CompletionRecord)
  reminders : Except String (Nat × List ReminderRecord)
  security : Except String (Nat × SecStats)
  financial : Except String (Nat × List BudgetRecord)
  gateway : Except String (Nat × List (String × HealthVal))

/-- The fields of `datetime.datetime.now()` that the assembler reads. -/
structure PyDatetime where
  hour : Nat
  isoformat : String
  hm : String
  ymd : String
deriving DecidableEq, Repr

/-- `get_time_of_day` (`proactive_intelligence.py:259-268`). -/
def get_time_of_day (hour : Nat) : String :=
  if 5 ≤ hour ∧ hour < 12 then "morning"
  else if 12 ≤ hour ∧ hour < 17 then "afternoon"
  else if 17 ≤ hour ∧ hour < 21 then "evening"
  else "night"

/-- The context dictionary returned by `gather_proactive_context`. -/
structure ProactiveContext where
  timestamp : String
  current_time : String
  current_date : String
  time_of_day : String
  medications : MedsCheck
  habits : HabitsCheck
  reminders : RemindersCheck
  security : SecurityCheck
  financial : FinancialCheck
  system_health : SystemHealthCheck
deriving DecidableEq, Repr

/-- `gather_proactive_context` (`proactive_intelligence.py:218-255`).  The
six checks are joined with `asyncio.gather(..., return_exceptions=True)`;
since every check catches its own exceptions and returns a dict, the
`isinstance(result, Exception)` fallbacks are unreachable, and the joined
result is exactly the six check results combined. -/
def gather_proactive_context (env : CheckEnvs) (now : PyDatetime) :
    ProactiveContext :=
  ⟨now.isoformat, now.hm, now.ymd, get_time_of_day now.hour,
   check_medications env.meds now.hour now.hm,
   check_habits env.habitsList env.habitsCompletions now.ymd,
   check_pending_reminders env.reminders,
   check_security env.security,
   check_financial env.financial,
   check_system_health env.gateway⟩

/-- `build_context_prompt` (`proactive_intelligence.py:271-320`), literally:
the header, the unconditional time line, one conditional line per category,
the (dead, see C6) `len == 1` all-clear check, and the closing instruction.
`total_habits`/`completed` are read with default 0; the source indexes
`total_habits` directly, but only on the path where `not_logged` is true,
on which the field is always present. -/
def build_context_prompt (context : ProactiveContext) : String :=
  let prompt_parts : List String :=
    ["CONTEXTUAL AWARENESS (Check these items and mention if relevant):"]
  let prompt_parts := prompt_parts ++
    ["Current time: " ++ context.current_time ++ " (" ++ context.time_of_day ++ ")"]
  let prompt_parts := prompt_parts ++
    (if context.medications.pending then
      ["⚕️ PENDING MEDICATIONS: User should take " ++
        String.intercalate ", " (context.medications.meds.map fun m =>
          m.name ++ " (" ++ m.dosage ++ ")") ++
        ". Ask if they've taken their meds."]
     else [])
  let prompt_parts := prompt_parts ++
    (if context.habits.not_logged then
      let total := context.habits.total_habits.getD 0
      let completed := context.habits.completed.getD 0
      ["📋 HABITS NOT LOGGED: User has " ++
        toString ((total : Int) - (completed : Int)) ++ "/" ++ toString total ++
        " habits not logged today (" ++
        String.intercalate ", " ((context.habits.habits.take 3).map HabitBrief.name) ++
        "). Remind them to log habits."]
     else [])
  let prompt_parts := prompt_parts ++
    (if context.reminders.pending then
      ["🔔 PENDING REMINDERS (" ++ toString context.reminders.count ++ "): " ++
        String.intercalate ", " context.reminders.reminders]
     else [])
  let prompt_parts := prompt_parts ++
    (if context.security.alerts then
      ["🔒 SECURITY ALERTS: " ++ String.intercalate ", " context.security.messages]
     else [])
  let prompt_parts := prompt_parts ++
    (if context.financial.alerts then
      ["💰 FINANCIAL ALERTS: " ++ String.intercalate ", " context.financial.messages]
     else [])
  let prompt_parts := prompt_parts ++
    (if !context.system_health.healthy then
      ["⚠️ SYSTEM ISSUES: Services down: " ++
        String.intercalate ", " context.system_health.down_services]
     else [])
  let prompt_parts :=
    if prompt_parts.length = 1 then
      prompt_parts ++ ["✅ All systems normal, no pending tasks."]
    else prompt_parts
  let prompt_parts := prompt_parts ++
    ["\nRESPOND NATURALLY: Mention relevant items conversationally, don't just list them."]
  String.intercalate "\n" prompt_parts

/-- `skip_keywords` of `should_be_proactive`
(`proactive_intelligence.py:323-336`). -/
def skip_keywords : List String :=
  ["/remember", "/recall", "/forget", "/help", "test", "debug"]

/-- `should_be_proactive` (`proactive_intelligence.py:323-336`): the for
loop returning `False` on the first keyword contained in the lowercased
message is `not any`. -/
def should_be_proactive (message : String) : Bool :=
  let message_lower := pyLower message
  !(skip_keywords.any fun keyword => strContains message_lower keyword)

/-- An environment where all seven collaborator GETs raise (e.g. every
service is down and each request times out). -/
def envAllFail : CheckEnvs :=
  ⟨Except.error "timed out", Except.error "timed out", Except.error "timed out",
   Except.error "timed out", Except.error "timed out", Except.error "timed out",
   Except.error "timed out"⟩

/-- A concrete morning instant used to instantiate theorems. -/
def now0 : PyDatetime := ⟨9, "2026-10-12T09:00:00", "09:00", "2026-10-12"⟩

end ProactiveIntelligence

theorem containsSub_iff_infix (s t : List Char) :
    containsSub s t = true ↔ t <:+: s := by
  induction s with
  | nil =>
      simp [containsSub, List.infix_nil, List.prefix_nil, List.isPrefixOf_iff_prefix]
  | cons c s' ih =>
      simp [containsSub, List.infix_cons_iff, ih, List.isPrefixOf_iff_prefix]

/-- C3: for every arguments mapping and every handler behaviour, calling the
dispatcher with a tool name outside the twelve registered tools returns
exactly the dict `{"error": "Unknown tool: <name>"}`.  The dispatcher is a
total Lean function into `ToolResult`, so it never raises, and being a
function of its arguments it returns the same result on repeated calls. -/
theorem C3_unknown_tool_dispatch (h : KiloTools.Handlers) (tool_name : String)
    (parameters : Params) (hn : tool_name ∉ KiloTools.registered_tools) :
    KiloTools.execute_tool_call h tool_name parameters =
      [("error", PyVal.str ("Unknown tool: " ++ tool_name))] := by
  simp only [KiloTools.registered_tools, List.mem_cons, List.not_mem_nil,
    or_false, not_or] at hn
  obtain ⟨h1, h2, h3, h4, h5, h6, h7, h8, h9, h10, h11, h12⟩ := hn
  simp [KiloTools.execute_tool_call, KiloTools.execute_tool_body,
    h1, h2, h3, h4, h5, h6, h7, h8, h9, h10, h11, h12]

/-- Witness for C3 at the spec's concrete input `("nonexistent_tool", {})`. -/
theorem C3_unknown_tool_dispatch_witness :
    KiloTools.execute_tool_call KiloTools.trivialHandlers "nonexistent_tool" [] =
      [("error", PyVal.str "Unknown tool: nonexistent_tool")] :=
  C3_unknown_tool_dispatch KiloTools.trivialHandlers "nonexistent_tool" []
    (by decide)

/-- C4: exception containment in dispatch — whenever the selected handler
(the body of the `try:` block) raises an exception `e`, `execute_tool_call`
returns the dict `{"error": str(e)}`; since the Lean embedding of
`execute_tool_call` is a total function into `ToolResult`, no exception ever
propagates to the caller. -/
theorem C4_exception_containment (h : KiloTools.Handlers) (tool_name : String)
    (parameters : Params) (e : String)
    (he : KiloTools.execute_tool_body h tool_name parameters = Except.error e) :
    KiloTools.execute_tool_call h tool_name parameters = [("error", PyVal.str e)] := by
  simp [KiloTools.execute_tool_call, he]

/-- Witness for C4: a handler valuation where `_get_medications` raises
`"boom"`; the dispatcher returns `{"error": "boom"}`. -/
theorem C4_exception_containment_witness :
    KiloTools.execute_tool_call KiloTools.raisingHandlers "get_medications" [] =
      [("error", PyVal.str "boom")] :=
  C4_exception_containment KiloTools.raisingHandlers "get_medications" [] "boom"
    (by rfl)

/-- C7 counterexample: the claim's example is false on the code.  Python's
`in` is a contiguous-substring test, so `"aspirn"` (a typo) is NOT a
substring of `"aspirin"`; against a med list containing only `"Aspirin"`,
`_log_medication_taken` returns the not-found error instead of resolving. -/
theorem C7_counterexample :
    KiloTools.log_medication_taken_impl (Except.ok (200, [⟨1, "Aspirin"⟩]))
        (fun _ => 200) "aspirn" =
      [("error", PyVal.str "Medication 'aspirn' not found. Available: Aspirin")] ∧
    strContains (pyLower "Aspirin") (pyLower "aspirn") = false := by
  exact ⟨rfl, rfl⟩

/-- C7 (amended): medication-name resolution in `_log_medication_taken`
against a successfully fetched med list:
(1) first match — if the list splits as `pre ++ m :: post` where no name in
`pre` contains the (lowercased) supplied name as a substring and `m`'s name
does, the handler logs `m`;
(2) the literal name `"all"` (case-insensitive) logs every medication;
(3) if no medication's name contains the supplied string, the handler
returns an error listing all valid medication names. -/
theorem C7_med_name_resolution (meds pre post : List KiloTools.Med)
    (takeStatus : Nat → Nat) (med_name : String) (m : KiloTools.Med) :
    (med_name ≠ "" → pyLower med_name ≠ "all" →
      meds = pre ++ m :: post →
      (∀ x ∈ pre, ¬ (pyLower med_name).data <:+: (pyLower x.name).data) →
      (pyLower med_name).data <:+: (pyLower m.name).data →
      KiloTools.log_medication_taken_impl (Except.ok (200, meds)) takeStatus med_name =
        (if takeStatus m.id = 200 ∨ takeStatus m.id = 201 then
          [("success", PyVal.bool true), ("medication", PyVal.str m.name),
           ("message", PyVal.str ("Logged dose of " ++ m.name))]
         else
          [("error", PyVal.str ("Failed to log medication (HTTP " ++
            toString (takeStatus m.id) ++ ")"))])) ∧
    (pyLower med_name = "all" →
      KiloTools.log_medication_taken_impl (Except.ok (200, meds)) takeStatus med_name =
        [("success", PyVal.bool true),
         ("logged", PyVal.list (meds.map fun x =>
            PyVal.dict [("medication", PyVal.str x.name),
                        ("success", PyVal.bool (takeStatus x.id = 200 ∨ takeStatus x.id = 201))])),
         ("message", PyVal.str ("Logged all " ++ toString meds.length ++ " medications"))]) ∧
    (med_name ≠ "" → pyLower med_name ≠ "all" →
      (∀ x ∈ meds, ¬ (pyLower med_name).data <:+: (pyLower x.name).data) →
      KiloTools.log_medication_taken_impl (Except.ok (200, meds)) takeStatus med_name =
        [("error", PyVal.str ("Medication '" ++ med_name ++ "' not found. Available: " ++
          String.intercalate ", " (meds.map KiloTools.Med.name)))]) := by
  refine ⟨fun hne hall hsplit hpre hm => ?_, fun hall => ?_, fun hne hall hnone => ?_⟩
  · have hfind : meds.find?
        (fun x => strContains (pyLower x.name) (pyLower med_name)) = some m := by
      subst hsplit
      rw [List.find?_append]
      have hpre' : pre.find?
          (fun x => strContains (pyLower x.name) (pyLower med_name)) = none := by
        rw [List.find?_eq_none]
        intro x hx
        simp only [strContains, containsSub_iff_infix]
        exact fun hc => hpre x hx hc
      rw [hpre']
      have hm' : strContains (pyLower m.name) (pyLower med_name) = true := by
        simpa [strContains, containsSub_iff_infix] using hm
      simp [List.find?, hm']
    simp [KiloTools.log_medication_taken_impl, hne, hall, hfind]
  · have hne : med_name ≠ "" := by
      intro h
      rw [h] at hall
      exact absurd hall (by decide)
    simp [KiloTools.log_medication_taken_impl, hne, hall]
  · have hfind : meds.find?
        (fun x => strContains (pyLower x.name) (pyLower med_name)) = none := by
      rw [List.find?_eq_none]
      intro x hx
      simp only [strContains, containsSub_iff_infix]
      exact fun hc => hnone x hx hc
    simp [KiloTools.log_medication_taken_impl, hne, hall, hfind]

/-- Witness for C7 at concrete inputs: `"aspir"` resolves to `"Aspirin"` by
contiguous substring match, `"all"` logs both meds in the list, and
`"nonexistent"` surfaces the error listing all valid names. -/
theorem C7_med_name_resolution_witness :
    (KiloTools.log_medication_taken_impl (Except.ok (200, [⟨1, "Aspirin"⟩]))
        (fun _ => 200) "aspir" =
      [("success", PyVal.bool true), ("medication", PyVal.str "Aspirin"),
       ("message", PyVal.str "Logged dose of Aspirin")]) ∧
    (KiloTools.log_medication_taken_impl
        (Except.ok (200, [⟨1, "Aspirin"⟩, ⟨2, "Buspirone"⟩])) (fun _ => 200) "ALL" =
      [("success", PyVal.bool true),
       ("logged", PyVal.list
          [PyVal.dict [("medication", PyVal.str "Aspirin"), ("success", PyVal.bool true)],
           PyVal.dict [("medication", PyVal.str "Buspirone"), ("success", PyVal.bool true)]]),
       ("message", PyVal.str "Logged all 2 medications")]) ∧
    (KiloTools.log_medication_taken_impl (Except.ok (200, [⟨1, "Aspirin"⟩]))
        (fun _ => 200) "nonexistent" =
      [("error", PyVal.str "Medication 'nonexistent' not found. Available: Aspirin")]) := by
  refine ⟨?_, ?_, ?_⟩
  · have h := (C7_med_name_resolution [⟨1, "Aspirin"⟩] [] [] (fun _ => 200)
      "aspir" ⟨1, "Aspirin"⟩).1 (by decide) (by decide) rfl (by simp) (by decide)
    simpa using h
  · exact (C7_med_name_resolution [⟨1, "Aspirin"⟩, ⟨2, "Buspirone"⟩] [] []
      (fun _ => 200) "ALL" ⟨1, "Aspirin"⟩).2.1 (by decide)
  · exact (C7_med_name_resolution [⟨1, "Aspirin"⟩] [] [] (fun _ => 200)
      "nonexistent" ⟨1, "Aspirin"⟩).2.2 (by decide) (by decide) (by decide)

/-- C10: `should_be_proactive` returns `False` exactly when the lowercased
message contains one of the six skip keywords as a substring anywhere in the
message (so e.g. `"I passed my test"` is skipped because it contains
`"test"`), and returns `True` for every other message. -/
theorem C10_should_be_proactive_iff (message : String) :
    ProactiveIntelligence.should_be_proactive message = false ↔
      ∃ k ∈ ProactiveIntelligence.skip_keywords,
        k.data <:+: (pyLower message).data := by
  simp [ProactiveIntelligence.should_be_proactive, strContains,
    List.any_eq_true, containsSub_iff_infix]

theorem run_loop_rounds_le (model : AiBrain.GenModel) (h : KiloTools.Handlers) :
    ∀ (fuel : Nat) (history : List AiBrain.Content) (response : AiBrain.ModelResponse),
      (AiBrain.run_loop model h fuel history response).2.2 ≤ fuel := by
  intro fuel
  induction fuel with
  | zero =>
      intro history response
      simp [AiBrain.run_loop]
  | succ n ih =>
      intro history response
      cases hc : response.candidates with
      | nil => simp [AiBrain.run_loop, hc]
      | cons c cs =>
          cases hfc : c.parts.filterMap AiBrain.Part.function_call with
          | nil => simp [AiBrain.run_loop, hc, hfc]
          | cons fc fcs =>
              simp only [AiBrain.run_loop, hc, hfc]
              exact Nat.succ_le_succ (ih _ _)

/-- C1: the tool-calling loop is bounded — for any model behaviour, handler
behaviour, starting history and starting response, the loop started with the
budget `max_iterations` performs at most 5 tool-execution rounds, and
`_gemini_with_functions` always terminates with the final text extracted
from the response the loop ends on (the embedding is a total function, so a
final response string is always produced). -/
theorem C1_bounded_iterations (model : AiBrain.GenModel) (h : KiloTools.Handlers)
    (history : List AiBrain.Content) (response : AiBrain.ModelResponse)
    (full_prompt : String) :
    (AiBrain.run_loop model h AiBrain.max_iterations history response).2.2 ≤ 5 ∧
    AiBrain.gemini_with_functions model h full_prompt =
      AiBrain.extract_final_text (AiBrain.final_response model h full_prompt) :=
  ⟨run_loop_rounds_le model h AiBrain.max_iterations history response, rfl⟩

theorem pairedAux_append (h : KiloTools.Handlers) (ys : List AiBrain.Content) :
    ∀ (xs : List AiBrain.Content) (p : Option (List AiBrain.FuncCall)),
      AiBrain.pairedAux h p xs = true →
      AiBrain.pairedAux h p (xs ++ ys) = AiBrain.pairedAux h none ys := by
  intro xs
  induction xs with
  | nil =>
      intro p hp
      cases p with
      | none => simp
      | some fcs => simp [AiBrain.pairedAux] at hp
  | cons c rest ih =>
      intro p hp
      cases p with
      | none =>
          cases c with
          | prompt s =>
              rw [List.cons_append]
              rw [AiBrain.pairedAux] at hp ⊢
              exact ih none hp
          | function resps =>
              rw [List.cons_append]
              rw [AiBrain.pairedAux] at hp ⊢
              exact ih none hp
          | model parts =>
              rw [List.cons_append]
              cases hfc : parts.filterMap AiBrain.Part.function_call with
              | nil =>
                  rw [AiBrain.pairedAux] at hp ⊢
                  rw [hfc] at hp ⊢
                  exact ih none hp
              | cons fc fcs =>
                  rw [AiBrain.pairedAux] at hp ⊢
                  rw [hfc] at hp ⊢
                  exact ih (some (fc :: fcs)) hp
      | some fcs =>
          cases c with
          | prompt s => simp [AiBrain.pairedAux] at hp
          | model parts => simp [AiBrain.pairedAux] at hp
          | function resps =>
              rw [List.cons_append]
              rw [AiBrain.pairedAux] at hp ⊢
              by_cases hr : resps = fcs.map (AiBrain.mkFuncResponse h)
              · rw [if_pos hr] at hp ⊢
                exact ih none hp
              · rw [if_neg hr] at hp
                exact absurd hp (by simp)

theorem pairedAux_block (h : KiloTools.Handlers) (parts : List AiBrain.Part)
    (fc : AiBrain.FuncCall) (fcs : List AiBrain.FuncCall)
    (hfc : parts.filterMap AiBrain.Part.function_call = fc :: fcs) :
    AiBrain.pairedAux h none
      [AiBrain.Content.model parts,
       AiBrain.Content.function ((fc :: fcs).map (AiBrain.mkFuncResponse h))] = true := by
  simp [AiBrain.pairedAux, hfc]

/-- C2: turn pairing — the loop preserves the pairing invariant: in the
history it produces, every model turn containing k ≥ 1 function calls is
immediately followed by exactly one `role='function'` turn holding exactly
the k results of executing those calls through `execute_tool_call`, in the
order the model emitted them (`pairedAux` walks the history checking
precisely this). -/
theorem C2_turn_pairing (model : AiBrain.GenModel) (h : KiloTools.Handlers)
    (fuel : Nat) (history : List AiBrain.Content) (response : AiBrain.ModelResponse)
    (hp : AiBrain.pairedAux h none history = true) :
    AiBrain.pairedAux h none
      (AiBrain.run_loop model h fuel history response).2.1 = true := by
  induction fuel generalizing history response with
  | zero => simpa [AiBrain.run_loop] using hp
  | succ n ih =>
      cases hc : response.candidates with
      | nil => simpa [AiBrain.run_loop, hc] using hp
      | cons c cs =>
          cases hfc : c.parts.filterMap AiBrain.Part.function_call with
          | nil => simpa [AiBrain.run_loop, hc, hfc] using hp
          | cons fc fcs =>
              simp only [AiBrain.run_loop, hc, hfc]
              apply ih
              rw [pairedAux_append h _ history none hp]
              exact pairedAux_block h c.parts fc fcs hfc

/-- Witness for C2: a model that requests `get_habits` on every turn drives
the loop to budget exhaustion; the resulting ten-turn appended history (five
model/function turn pairs after the prompt) satisfies the pairing
invariant. -/
theorem C2_turn_pairing_witness :
    AiBrain.pairedAux KiloTools.trivialHandlers none
      (AiBrain.run_loop AiBrain.constModel KiloTools.trivialHandlers
        AiBrain.max_iterations [AiBrain.Content.prompt "hi"]
        AiBrain.callOnlyResponse).2.1 = true :=
  C2_turn_pairing AiBrain.constModel KiloTools.trivialHandlers
    AiBrain.max_iterations [AiBrain.Content.prompt "hi"]
    AiBrain.callOnlyResponse (by rfl)

/-- C8 counterexample: the fallback at loop exit does NOT search prior
turns.  With a model whose first turn carries the text part `"hello"`
alongside a function call and whose later turns are calls with no text, the
final history contains a model turn with text `"hello"`, yet the
orchestrator returns the placeholder `"Done."` — the claim would require
`"hello"`. -/
theorem C8_counterexample :
    AiBrain.gemini_with_functions AiBrain.textThenCallsModel
        KiloTools.trivialHandlers "hi" = "Done." ∧
    AiBrain.historyHasText
      (AiBrain.final_history AiBrain.textThenCallsModel
        KiloTools.trivialHandlers "hi") = true :=
  ⟨rfl, rfl⟩

/-- C8 (amended): final-text extraction at loop exit — if the last model
response has truthy top-level text, that text is returned; if it has none,
the orchestrator falls back to the first truthy text among the parts of the
LAST response's candidates (not prior turns), and if the last response has
no text anywhere it returns the fixed placeholder `"Done."`. -/
theorem C8_final_text_extraction (model : AiBrain.GenModel)
    (h : KiloTools.Handlers) (full_prompt t : String) :
    (AiBrain.truthyOpt (AiBrain.final_response model h full_prompt).text = true →
      AiBrain.gemini_with_functions model h full_prompt =
        (AiBrain.final_response model h full_prompt).text.getD "") ∧
    (AiBrain.truthyOpt (AiBrain.final_response model h full_prompt).text = false →
      AiBrain.first_part_text (AiBrain.final_response model h full_prompt) = some t →
      AiBrain.gemini_with_functions model h full_prompt = t) ∧
    (AiBrain.truthyOpt (AiBrain.final_response model h full_prompt).text = false →
      AiBrain.first_part_text (AiBrain.final_response model h full_prompt) = none →
      AiBrain.gemini_with_functions model h full_prompt = "Done.") := by
  refine ⟨fun ht => ?_, fun ht hf => ?_, fun ht hf => ?_⟩
  · simp [AiBrain.gemini_with_functions, AiBrain.extract_final_text, ht]
  · simp [AiBrain.gemini_with_functions, AiBrain.extract_final_text, ht, hf]
  · simp [AiBrain.gemini_with_functions, AiBrain.extract_final_text, ht, hf]

/-- Witness for C8 at a concrete run ending on a tool call with no text
anywhere in the final response: the placeholder is returned. -/
theorem C8_final_text_extraction_witness :
    AiBrain.gemini_with_functions AiBrain.constModel
      KiloTools.trivialHandlers "hi" = "Done." :=
  (C8_final_text_extraction AiBrain.constModel KiloTools.trivialHandlers
    "hi" "unused").2.2 (by rfl) (by rfl)

/-- C9: model-backend failure handling — whenever the request body (prompt
assembly, model invocation, loop) raises, `chat_llm_direct` returns the
fixed reply `"Brain glitched. Try again."` with the request context passed
through; the reply is independent of the exception, so no exception detail
is exposed, and the embedding being a total function, no exception
propagates.  Tool and collaborator failures never reach this branch: by C4
they are returned as data inside the conversation. -/
theorem C9_model_backend_failure (context : Option String) (e e' : String) :
    AiBrain.chat_llm_direct (Except.error e) context =
      ⟨"Brain glitched. Try again.", context⟩ ∧
    AiBrain.chat_llm_direct (Except.error e) context =
      AiBrain.chat_llm_direct (Except.error e') context :=
  ⟨rfl, rfl⟩

/-- C5: total failure tolerance of context assembly — if all collaborator
requests raise (fail or time out), `gather_proactive_context` still returns
the well-formed context with every sub-field in its empty/default state
(`pending = false` with empty meds, `not_logged = false` with empty habits,
no reminders, no security or financial alerts, `healthy = true`), each
carrying its exception text, plus the timestamp/time-of-day fields; and each
check's sub-result depends only on its own collaborator responses, so no
single check's failure affects any other check's result. -/
theorem C5_total_failure_tolerance (env : ProactiveIntelligence.CheckEnvs)
    (now : ProactiveIntelligence.PyDatetime) (e1 e2 e3 e4 e5 e6 : String)
    (h1 : env.meds = Except.error e1)
    (h2 : env.habitsList = Except.error e2)
    (h3 : env.reminders = Except.error e3)
    (h4 : env.security = Except.error e4)
    (h5 : env.financial = Except.error e5)
    (h6 : env.gateway = Except.error e6) :
    ProactiveIntelligence.gather_proactive_context env now =
      ⟨now.isoformat, now.hm, now.ymd,
       ProactiveIntelligence.get_time_of_day now.hour,
       ⟨false, [], none, some e1⟩,
       ⟨false, [], none, none, some e2⟩,
       ⟨false, 0, [], some e3⟩,
       ⟨false, [], none, some e4⟩,
       ⟨false, [], [], some e5⟩,
       ⟨true, [], 0, some e6⟩⟩ ∧
    (∀ env' : ProactiveIntelligence.CheckEnvs,
      (env'.meds = env.meds →
        (ProactiveIntelligence.gather_proactive_context env' now).medications =
          (ProactiveIntelligence.gather_proactive_context env now).medications) ∧
      (env'.habitsList = env.habitsList →
        env'.habitsCompletions = env.habitsCompletions →
        (ProactiveIntelligence.gather_proactive_context env' now).habits =
          (ProactiveIntelligence.gather_proactive_context env now).habits) ∧
      (env'.reminders = env.reminders →
        (ProactiveIntelligence.gather_proactive_context env' now).reminders =
          (ProactiveIntelligence.gather_proactive_context env now).reminders) ∧
      (env'.security = env.security →
        (ProactiveIntelligence.gather_proactive_context env' now).security =
          (ProactiveIntelligence.gather_proactive_context env now).security) ∧
      (env'.financial = env.financial →
        (ProactiveIntelligence.gather_proactive_context env' now).financial =
          (ProactiveIntelligence.gather_proactive_context env now).financial) ∧
      (env'.gateway = env.gateway →
        (ProactiveIntelligence.gather_proactive_context env' now).system_health =
          (ProactiveIntelligence.gather_proactive_context env now).system_health)) := by
  constructor
  · obtain ⟨menv, henv, cenv, renv, senv, fenv, genv⟩ := env
    simp only at h1 h2 h3 h4 h5 h6
    subst h1 h2 h3 h4 h5 h6
    rfl
  · intro env'
    refine ⟨fun hm => ?_, fun ha hb => ?_, fun hr => ?_, fun hs => ?_,
            fun hf => ?_, fun hg => ?_⟩
    · simp only [ProactiveIntelligence.gather_proactive_context]
      rw [hm]
    · simp only [ProactiveIntelligence.gather_proactive_context]
      rw [ha, hb]
    · simp only [ProactiveIntelligence.gather_proactive_context]
      rw [hr]
    · simp only [ProactiveIntelligence.gather_proactive_context]
      rw [hs]
    · simp only [ProactiveIntelligence.gather_proactive_context]
      rw [hf]
    · simp only [ProactiveIntelligence.gather_proactive_context]
      rw [hg]

/-- Witness for C5: with every collaborator timing out, the assembled
context is the all-default record. -/
theorem C5_total_failure_tolerance_witness :
    ProactiveIntelligence.gather_proactive_context ProactiveIntelligence.envAllFail
        ProactiveIntelligence.now0 =
      ⟨"2026-10-12T09:00:00", "09:00", "2026-10-12", "morning",
       ⟨false, [], none, some "timed out"⟩,
       ⟨false, [], none, none, some "timed out"⟩,
       ⟨false, 0, [], some "timed out"⟩,
       ⟨false, [], none, some "timed out"⟩,
       ⟨false, [], [], some "timed out"⟩,
       ⟨true, [], 0, some "timed out"⟩⟩ := by
  have h := (C5_total_failure_tolerance ProactiveIntelligence.envAllFail
    ProactiveIntelligence.now0 "timed out" "timed out" "timed out" "timed out"
    "timed out" "timed out" rfl rfl rfl rfl rfl rfl).1
  rw [h]
  rfl

set_option maxRecDepth 8192 in
/-- C6 (code-bug evidence): on an all-clear context — no category has any
findings — `build_context_prompt` does NOT emit the
`"✅ All systems normal, no pending tasks."` line: the `len(prompt_parts) == 1`
check guarding it (commented `# No alerts, add positive context` in the
source) is dead, because the unconditional current-time line already makes
the list length 2.  The returned block consists of only the header, the time
line and the closing instruction. -/
theorem C6_all_clear_line_never_emitted :
    ProactiveIntelligence.build_context_prompt
        (ProactiveIntelligence.gather_proactive_context
          ProactiveIntelligence.envAllFail ProactiveIntelligence.now0) =
      "CONTEXTUAL AWARENESS (Check these items and mention if relevant):\nCurrent time: 09:00 (morning)\n\nRESPOND NATURALLY: Mention relevant items conversationally, don't just list them." ∧
    strContains
      (ProactiveIntelligence.build_context_prompt
        (ProactiveIntelligence.gather_proactive_context
          ProactiveIntelligence.envAllFail ProactiveIntelligence.now0))
      "All systems normal" = false :=
  ⟨rfl, rfl⟩
